import Mathlib

/-!
Shallow embedding of the BedLiftBee bed-lift safety controller from
src/workers/bedliftbee.cpp.

The mutable file-scope globals (`state`, `config`, `ultrasonicFailCount`)
become an explicit `LiftState` record threaded through pure transition
functions; `millis()` becomes an explicit `now : Nat` argument (the clock
is monotone within a session, so unsigned wraparound is not modelled);
`digitalWrite` to the two relay GPIO pins becomes the `pinUp` / `pinDown`
fields of the record (`RELAY_ON` is active-low in the source).  Float
distances are modelled as exact rationals; the C `(int)` cast is modelled
by `cTrunc`, truncation toward zero.
-/

namespace BedLift

/-- Digital level of a GPIO pin. -/
inductive PinLevel
  | low
  | high
  deriving DecidableEq, Repr

/-- Relay modules are active LOW in the source. -/
def RELAY_ON : PinLevel := PinLevel.low

/-- Relay de-energized level. -/
def RELAY_OFF : PinLevel := PinLevel.high

/-- Safety timeout for send-to-limit mode, milliseconds. -/
def MAX_SEND_TO_LIMIT_DURATION : Nat := 30000

/-- Stop when an obstacle is closer than this many centimeters. -/
def MIN_SAFE_DISTANCE_CM : ℚ := 10

/-- Consecutive ultrasonic failures needed to mark the sensor offline. -/
def ULTRASONIC_FAIL_THRESHOLD : Nat := 5

/-- Persisted configuration fields used by the lift logic. -/
structure Config where
  liftDuration : Nat
  nudgeDuration : Nat
  deriving DecidableEq, Repr

/-- Combined program state: the `DeviceState` fields used by the lift
logic, the file-scope global `ultrasonicFailCount`, and the physical
levels written to the two relay GPIO pins. -/
structure LiftState where
  isLifting : Bool
  sendToLimit : Bool
  liftDirection : String
  liftStartTime : Nat
  relayUp : Bool
  relayDown : Bool
  distanceCm : ℚ
  ultrasonicOk : Bool
  atLimit : Bool
  lastStopReason : String
  limitDirection : String
  isNudging : Bool
  nudgeStartTime : Nat
  calibratedTopCm : ℚ
  calibratedBottomCm : ℚ
  positionPercent : Int
  ultrasonicFailCount : Nat
  pinUp : PinLevel
  pinDown : PinLevel
  deriving DecidableEq, Repr

/-- State at boot: `DeviceState` member defaults, plus both relay pins
written to `RELAY_OFF` in `setup()`. -/
def initState : LiftState :=
  { isLifting := false
    sendToLimit := false
    liftDirection := ""
    liftStartTime := 0
    relayUp := false
    relayDown := false
    distanceCm := 0
    ultrasonicOk := false
    atLimit := false
    lastStopReason := ""
    limitDirection := ""
    isNudging := false
    nudgeStartTime := 0
    calibratedTopCm := 0
    calibratedBottomCm := 0
    positionPercent := -1
    ultrasonicFailCount := 0
    pinUp := RELAY_OFF
    pinDown := RELAY_OFF }

/-- C `(int)` cast of a rational: truncation toward zero. -/
def cTrunc (q : ℚ) : Int :=
  if 0 ≤ q.num then Int.ofNat (q.num.toNat / q.den)
  else - Int.ofNat ((- q.num).toNat / q.den)

/-- Embedding of `calculatePositionPercent()`. -/
def calculatePositionPercent (s : LiftState) : Int :=
  if s.calibratedTopCm = 0 ∨ s.calibratedBottomCm = 0 then -1
  else if ¬ s.ultrasonicOk then -1
  else
    let range := s.calibratedBottomCm - s.calibratedTopCm
    if range ≤ 0 then -1
    else
      let fromBottom := s.calibratedBottomCm - s.distanceCm
      let percent := cTrunc (fromBottom / range * 100)
      let percent := if percent < 0 then 0 else percent
      if percent > 100 then 100 else percent

/-- Embedding of `calibratePosition(position)`. -/
def calibratePosition (s : LiftState) (position : String) : LiftState :=
  if ¬ s.ultrasonicOk then s
  else
    let s1 :=
      if position = "top" then { s with calibratedTopCm := s.distanceCm }
      else if position = "bottom" then { s with calibratedBottomCm := s.distanceCm }
      else s
    { s1 with positionPercent := calculatePositionPercent s1 }

/-- Embedding of `isSafeToMove(direction)`. -/
def isSafeToMove (s : LiftState) (direction : String) : Bool :=
  if s.isNudging then false
  else if s.atLimit ∧ (s.limitDirection = "" ∨ s.limitDirection = direction) then false
  else if direction = "lower" ∧ s.ultrasonicOk ∧
          0 < s.distanceCm ∧ s.distanceCm < MIN_SAFE_DISTANCE_CM then false
  else true

/-- Embedding of `stopLift(reason)`: relay pins off, stop reason recorded
when a lift was in progress, any nudge cancelled, lift fields reset. -/
def stopLift (s : LiftState) (reason : String) : LiftState :=
  let s1 := { s with pinUp := RELAY_OFF, pinDown := RELAY_OFF }
  let s2 := if s1.isLifting then { s1 with lastStopReason := reason } else s1
  let s3 := if s2.isNudging then { s2 with isNudging := false, nudgeStartTime := 0 } else s2
  { s3 with isLifting := false, sendToLimit := false, liftDirection := "",
            liftStartTime := 0, relayUp := false, relayDown := false }

/-- Embedding of `startLift(direction, toLimit)`. -/
def startLift (now : Nat) (s : LiftState) (direction : String) (toLimit : Bool) : LiftState :=
  if ¬ isSafeToMove s direction then s
  else
    let s1 := stopLift s "starting_new"
    let s2 := { s1 with liftDirection := direction, liftStartTime := now,
                        isLifting := true, sendToLimit := toLimit, lastStopReason := "" }
    if direction = "raise" then
      { s2 with pinUp := RELAY_ON, pinDown := RELAY_OFF, relayUp := true, relayDown := false }
    else if direction = "lower" then
      { s2 with pinUp := RELAY_OFF, pinDown := RELAY_ON, relayUp := false, relayDown := true }
    else s2

/-- Embedding of `startNudge(awayFrom)`: energizes one relay pin to back
off the limit switch; the `relayUp` / `relayDown` state fields are not
touched by the source here. -/
def startNudge (now : Nat) (s : LiftState) (awayFrom : String) : LiftState :=
  let s1 := { s with isNudging := true, nudgeStartTime := now }
  if awayFrom = "lower" then { s1 with pinUp := RELAY_ON, pinDown := RELAY_OFF }
  else { s1 with pinUp := RELAY_OFF, pinDown := RELAY_ON }

/-- Embedding of `updateNudge()`. -/
def updateNudge (now : Nat) (cfg : Config) (s : LiftState) : LiftState :=
  if ¬ s.isNudging then s
  else if cfg.nudgeDuration ≤ now - s.nudgeStartTime then
    { s with pinUp := RELAY_OFF, pinDown := RELAY_OFF, isNudging := false, nudgeStartTime := 0 }
  else s

/-- Per-tick limit and obstacle checks at the tail of `updateLift()`
(reached when neither timer has expired). -/
def updateLiftSafety (s : LiftState) : LiftState :=
  if s.atLimit ∧ (s.limitDirection = "" ∨ s.limitDirection = s.liftDirection) then
    stopLift s "limit"
  else if s.liftDirection = "lower" ∧ s.ultrasonicOk ∧
          0 < s.distanceCm ∧ s.distanceCm < MIN_SAFE_DISTANCE_CM then
    stopLift s "obstacle"
  else s

/-- Embedding of `updateLift()`. -/
def updateLift (now : Nat) (cfg : Config) (s : LiftState) : LiftState :=
  if ¬ s.isLifting then s
  else
    let elapsed := now - s.liftStartTime
    if s.sendToLimit then
      if MAX_SEND_TO_LIMIT_DURATION ≤ elapsed then stopLift s "safety_timeout"
      else updateLiftSafety s
    else
      if cfg.liftDuration ≤ elapsed then stopLift s "timer"
      else updateLiftSafety s

/-- Embedding of `readReedSwitch()`: `reedHigh` is the debounced level of
the reed pin (`HIGH` means the magnet is present, i.e. limit triggered). -/
def readReedSwitch (reedHigh : Bool) (now : Nat) (s : LiftState) : LiftState :=
  if reedHigh = s.atLimit then s
  else
    let s1 := { s with atLimit := reedHigh }
    if reedHigh then
      if s1.isLifting then
        let hitDirection := s1.liftDirection
        let s2 := { s1 with limitDirection := hitDirection }
        startNudge now (stopLift s2 "limit") hitDirection
      else if s1.isNudging then
        stopLift { s1 with limitDirection := "" } "limit_during_nudge"
      else { s1 with limitDirection := "" }
    else { s1 with limitDirection := "" }

/-- Embedding of the ultrasonic branch of `updateSensors()`: one call of
`readUltrasonic()` returned `reading` (negative on timeout; the source
treats any reading that is not strictly positive as a failure). -/
def updateUltrasonic (reading : ℚ) (s : LiftState) : LiftState :=
  let s1 :=
    if 0 < reading then
      { s with distanceCm := reading, ultrasonicFailCount := 0, ultrasonicOk := true }
    else
      let s0 := { s with ultrasonicFailCount := s.ultrasonicFailCount + 1 }
      if ULTRASONIC_FAIL_THRESHOLD ≤ s0.ultrasonicFailCount then
        { s0 with ultrasonicOk := false }
      else s0
  { s1 with positionPercent := calculatePositionPercent s1 }

/-- External commands accepted over MQTT (`onMqttMessage`) and the web
endpoints, as handled by the source's dispatch. -/
inductive Command
  | raise
  | lower
  | stop
  | sendToTop
  | sendToBottom
  | calibrateTop
  | calibrateBottom
  deriving DecidableEq, Repr

/-- Embedding of the command dispatch in `onMqttMessage` (the `/lift` and
`/calibrate` web endpoints dispatch identically). -/
def handleCommand (now : Nat) (c : Command) (s : LiftState) : LiftState :=
  match c with
  | Command.raise => startLift now s "raise" false
  | Command.lower => startLift now s "lower" false
  | Command.stop => stopLift s "manual"
  | Command.sendToTop => startLift now s "raise" true
  | Command.sendToBottom => startLift now s "lower" true
  | Command.calibrateTop => calibratePosition s "top"
  | Command.calibrateBottom => calibratePosition s "bottom"

/-- One atomic state mutation of the control program: a command arriving,
an ultrasonic read completing, a reed-switch poll, or one of the two
per-tick update routines running.  The main `loop()` interleaves these
in a fixed order; every behaviour of the source is a sequence of these
steps. -/
inductive Step (cfg : Config) (s : LiftState) : LiftState → Prop
  | cmd (now : Nat) (c : Command) : Step cfg s (handleCommand now c s)
  | ultra (reading : ℚ) : Step cfg s (updateUltrasonic reading s)
  | reed (reedHigh : Bool) (now : Nat) : Step cfg s (readReedSwitch reedHigh now s)
  | lift (now : Nat) : Step cfg s (updateLift now cfg s)
  | nudge (now : Nat) : Step cfg s (updateNudge now cfg s)

/-- States reachable from boot under any interleaving of steps. -/
inductive Reachable (cfg : Config) : LiftState → Prop
  | init : Reachable cfg initState
  | step {s t : LiftState} : Reachable cfg s → Step cfg s t → Reachable cfg t

/-- Relay fields of the telemetry snapshot built by `publishState()`
(`doc["relayUp"]`, `doc["relayDown"]`). -/
def publishedRelays (s : LiftState) : Bool × Bool :=
  (s.relayUp, s.relayDown)

/-- Default configuration (`DEFAULT_LIFT_DURATION`, `DEFAULT_NUDGE_DURATION`). -/
def defaultCfg : Config :=
  { liftDuration := 3000, nudgeDuration := 300 }

/-! Projection lemmas for the transition functions. -/

@[simp] theorem stopLift_pinUp (s : LiftState) (r : String) :
    (stopLift s r).pinUp = RELAY_OFF := by
  simp only [stopLift] <;> (try split_ifs) <;> simp_all

@[simp] theorem stopLift_pinDown (s : LiftState) (r : String) :
    (stopLift s r).pinDown = RELAY_OFF := by
  simp only [stopLift] <;> (try split_ifs) <;> simp_all

@[simp] theorem stopLift_relayUp (s : LiftState) (r : String) :
    (stopLift s r).relayUp = false := by
  simp only [stopLift] <;> (try split_ifs) <;> simp_all

@[simp] theorem stopLift_relayDown (s : LiftState) (r : String) :
    (stopLift s r).relayDown = false := by
  simp only [stopLift] <;> (try split_ifs) <;> simp_all

@[simp] theorem stopLift_isLifting (s : LiftState) (r : String) :
    (stopLift s r).isLifting = false := by
  simp only [stopLift] <;> (try split_ifs) <;> simp_all

@[simp] theorem stopLift_isNudging (s : LiftState) (r : String) :
    (stopLift s r).isNudging = false := by
  simp only [stopLift] <;> (try split_ifs) <;> simp_all

@[simp] theorem stopLift_sendToLimit (s : LiftState) (r : String) :
    (stopLift s r).sendToLimit = false := by
  simp only [stopLift] <;> (try split_ifs) <;> simp_all

@[simp] theorem stopLift_liftDirection (s : LiftState) (r : String) :
    (stopLift s r).liftDirection = "" := by
  simp only [stopLift] <;> (try split_ifs) <;> simp_all

theorem stopLift_lastStopReason (s : LiftState) (r : String) :
    (stopLift s r).lastStopReason = if s.isLifting then r else s.lastStopReason := by
  simp only [stopLift] <;> (try split_ifs) <;> simp_all

theorem stopLift_nudgeStartTime (s : LiftState) (r : String) :
    (stopLift s r).nudgeStartTime = if s.isNudging then 0 else s.nudgeStartTime := by
  simp only [stopLift] <;> (try split_ifs) <;> simp_all

@[simp] theorem startNudge_isNudging (now : Nat) (s : LiftState) (a : String) :
    (startNudge now s a).isNudging = true := by
  simp only [startNudge] <;> (try split_ifs) <;> simp_all

@[simp] theorem startNudge_relayUp (now : Nat) (s : LiftState) (a : String) :
    (startNudge now s a).relayUp = s.relayUp := by
  simp only [startNudge] <;> (try split_ifs) <;> simp_all

@[simp] theorem startNudge_relayDown (now : Nat) (s : LiftState) (a : String) :
    (startNudge now s a).relayDown = s.relayDown := by
  simp only [startNudge] <;> (try split_ifs) <;> simp_all

theorem startNudge_pins (now : Nat) (s : LiftState) (a : String) :
    ((startNudge now s a).pinUp = RELAY_ON ∧ (startNudge now s a).pinDown = RELAY_OFF) ∨
    ((startNudge now s a).pinUp = RELAY_OFF ∧ (startNudge now s a).pinDown = RELAY_ON) := by
  simp only [startNudge] <;> (try split_ifs) <;> simp

@[simp] theorem calibratePosition_relayUp (s : LiftState) (p : String) :
    (calibratePosition s p).relayUp = s.relayUp := by
  simp only [calibratePosition] <;> (try split_ifs) <;> simp_all

@[simp] theorem calibratePosition_relayDown (s : LiftState) (p : String) :
    (calibratePosition s p).relayDown = s.relayDown := by
  simp only [calibratePosition] <;> (try split_ifs) <;> simp_all

@[simp] theorem calibratePosition_pinUp (s : LiftState) (p : String) :
    (calibratePosition s p).pinUp = s.pinUp := by
  simp only [calibratePosition] <;> (try split_ifs) <;> simp_all

@[simp] theorem calibratePosition_pinDown (s : LiftState) (p : String) :
    (calibratePosition s p).pinDown = s.pinDown := by
  simp only [calibratePosition] <;> (try split_ifs) <;> simp_all

@[simp] theorem calibratePosition_isNudging (s : LiftState) (p : String) :
    (calibratePosition s p).isNudging = s.isNudging := by
  simp only [calibratePosition] <;> (try split_ifs) <;> simp_all

@[simp] theorem updateUltrasonic_relayUp (r : ℚ) (s : LiftState) :
    (updateUltrasonic r s).relayUp = s.relayUp := by
  simp only [updateUltrasonic] <;> (try split_ifs) <;> simp_all

@[simp] theorem updateUltrasonic_relayDown (r : ℚ) (s : LiftState) :
    (updateUltrasonic r s).relayDown = s.relayDown := by
  simp only [updateUltrasonic] <;> (try split_ifs) <;> simp_all

@[simp] theorem updateUltrasonic_pinUp (r : ℚ) (s : LiftState) :
    (updateUltrasonic r s).pinUp = s.pinUp := by
  simp only [updateUltrasonic] <;> (try split_ifs) <;> simp_all

@[simp] theorem updateUltrasonic_pinDown (r : ℚ) (s : LiftState) :
    (updateUltrasonic r s).pinDown = s.pinDown := by
  simp only [updateUltrasonic] <;> (try split_ifs) <;> simp_all

@[simp] theorem updateUltrasonic_isNudging (r : ℚ) (s : LiftState) :
    (updateUltrasonic r s).isNudging = s.isNudging := by
  simp only [updateUltrasonic] <;> (try split_ifs) <;> simp_all

@[simp] theorem updateUltrasonic_distanceCm_pos (r : ℚ) (s : LiftState) (h : 0 < r) :
    (updateUltrasonic r s).distanceCm = r := by
  simp only [updateUltrasonic] <;> (try split_ifs) <;> simp_all

/-! Relay safety invariant. -/

/-- Mutual exclusion of the two relays, on both the published state
fields and the physical pin levels, plus the fact that the state fields
stay false during a nudge. -/
def RelayInv (s : LiftState) : Prop :=
  ¬(s.relayUp = true ∧ s.relayDown = true) ∧
  ¬(s.pinUp = RELAY_ON ∧ s.pinDown = RELAY_ON) ∧
  (s.isNudging = true → s.relayUp = false ∧ s.relayDown = false)

theorem relayInv_stopLift (s : LiftState) (r : String) : RelayInv (stopLift s r) := by
  refine ⟨by simp, by simp [RELAY_ON, RELAY_OFF], by simp⟩

theorem relayInv_startNudge (now : Nat) (s : LiftState) (a : String)
    (h1 : s.relayUp = false) (h2 : s.relayDown = false) :
    RelayInv (startNudge now s a) := by
  refine ⟨by simp [h1, h2], ?_, by simp [h1, h2]⟩
  rcases startNudge_pins now s a with ⟨hu, hd⟩ | ⟨hu, hd⟩ <;>
    simp [hu, hd, RELAY_ON, RELAY_OFF]

theorem relayInv_startLift (now : Nat) (s : LiftState) (d : String) (t : Bool)
    (h : RelayInv s) : RelayInv (startLift now s d t) := by
  simp only [startLift]
  split_ifs
  all_goals
    first
      | exact h
      | exact ⟨by simp, by simp [RELAY_ON, RELAY_OFF], by simp⟩

theorem relayInv_updateLiftSafety (s : LiftState) (h : RelayInv s) :
    RelayInv (updateLiftSafety s) := by
  simp only [updateLiftSafety]
  split_ifs <;> first | exact relayInv_stopLift _ _ | exact h

theorem relayInv_updateLift (now : Nat) (cfg : Config) (s : LiftState)
    (h : RelayInv s) : RelayInv (updateLift now cfg s) := by
  simp only [updateLift]
  split_ifs <;>
    first
      | exact h
      | exact relayInv_stopLift _ _
      | exact relayInv_updateLiftSafety s h

theorem relayInv_updateNudge (now : Nat) (cfg : Config) (s : LiftState)
    (h : RelayInv s) : RelayInv (updateNudge now cfg s) := by
  simp only [updateNudge]
  split_ifs
  all_goals
    first
      | exact h
      | exact ⟨by simpa using h.1, by simp [RELAY_ON, RELAY_OFF], by simp⟩

theorem relayInv_readReedSwitch (reedHigh : Bool) (now : Nat) (s : LiftState)
    (h : RelayInv s) : RelayInv (readReedSwitch reedHigh now s) := by
  simp only [readReedSwitch]
  split_ifs
  all_goals
    first
      | exact h
      | exact relayInv_startNudge _ _ _ (by simp) (by simp)
      | exact relayInv_stopLift _ _
      | exact ⟨h.1, h.2.1, h.2.2⟩

theorem relayInv_calibratePosition (s : LiftState) (p : String)
    (h : RelayInv s) : RelayInv (calibratePosition s p) := by
  refine ⟨by simpa using h.1, by simpa using h.2.1, by simpa using h.2.2⟩

theorem relayInv_updateUltrasonic (r : ℚ) (s : LiftState)
    (h : RelayInv s) : RelayInv (updateUltrasonic r s) := by
  refine ⟨by simpa using h.1, by simpa using h.2.1, by simpa using h.2.2⟩

theorem relayInv_handleCommand (now : Nat) (c : Command) (s : LiftState)
    (h : RelayInv s) : RelayInv (handleCommand now c s) := by
  cases c <;>
    first
      | exact relayInv_startLift _ _ _ _ h
      | exact relayInv_stopLift _ _
      | exact relayInv_calibratePosition _ _ h

theorem relayInv_initState : RelayInv initState := by
  refine ⟨by simp [initState], by simp [initState, RELAY_ON, RELAY_OFF], by simp [initState]⟩

theorem relayInv_reachable {cfg : Config} {s : LiftState}
    (h : Reachable cfg s) : RelayInv s := by
  induction h with
  | init => exact relayInv_initState
  | step _ hs ih =>
    cases hs with
    | cmd now c => exact relayInv_handleCommand now c _ ih
    | ultra r => exact relayInv_updateUltrasonic r _ ih
    | reed lvl now => exact relayInv_readReedSwitch lvl now _ ih
    | lift now => exact relayInv_updateLift now _ _ ih
    | nudge now => exact relayInv_updateNudge now _ _ ih

/-! Claim theorems. -/

/-- C1: In every reachable state the two relay outputs are never
simultaneously energized — the state fields `relayUp` and `relayDown` are
never both true, and the levels written to `RELAY_UP_PIN` and
`RELAY_DOWN_PIN` are never both `RELAY_ON`.  Every relay write (starting
a drive, stopping, starting a nudge, ending a nudge) preserves this. -/
theorem relays_mutually_exclusive {cfg : Config} {s : LiftState}
    (h : Reachable cfg s) :
    ¬(s.relayUp = true ∧ s.relayDown = true) ∧
    ¬(s.pinUp = RELAY_ON ∧ s.pinDown = RELAY_ON) :=
  ⟨(relayInv_reachable h).1, (relayInv_reachable h).2.1⟩

/-- Concrete reachable state: a good sensor read, then a raise command. -/
def exRaiseState : LiftState :=
  handleCommand 0 Command.raise (updateUltrasonic 50 initState)

/-- Witness for C1 at a concrete reachable state with one relay driving. -/
theorem relays_mutually_exclusive_witness :
    Reachable defaultCfg exRaiseState ∧
    ¬(exRaiseState.relayUp = true ∧ exRaiseState.relayDown = true) ∧
    ¬(exRaiseState.pinUp = RELAY_ON ∧ exRaiseState.pinDown = RELAY_ON) := by
  have hr : Reachable defaultCfg exRaiseState :=
    Reachable.step (Reachable.step Reachable.init (Step.ultra 50))
      (Step.cmd 0 Command.raise)
  exact ⟨hr, relays_mutually_exclusive hr⟩

/-- C2: a send-to-limit drive never persists past
`MAX_SEND_TO_LIMIT_DURATION` (30000 ms): once the elapsed time since
`liftStartTime` reaches it, the next `updateLift` tick stops the drive,
de-energizes both relays, and records `lastStopReason = "safety_timeout"`. -/
theorem sendToLimit_safety_timeout (now : Nat) (cfg : Config) (s : LiftState)
    (hl : s.isLifting = true) (ht : s.sendToLimit = true)
    (he : MAX_SEND_TO_LIMIT_DURATION ≤ now - s.liftStartTime) :
    updateLift now cfg s = stopLift s "safety_timeout" ∧
    (updateLift now cfg s).isLifting = false ∧
    (updateLift now cfg s).pinUp = RELAY_OFF ∧
    (updateLift now cfg s).pinDown = RELAY_OFF ∧
    (updateLift now cfg s).relayUp = false ∧
    (updateLift now cfg s).relayDown = false ∧
    (updateLift now cfg s).lastStopReason = "safety_timeout" := by
  have heq : updateLift now cfg s = stopLift s "safety_timeout" := by
    simp only [updateLift]
    split_ifs <;> simp_all
  refine ⟨heq, ?_, ?_, ?_, ?_, ?_, ?_⟩ <;>
    rw [heq] <;> simp [stopLift_lastStopReason, hl]

/-- Concrete state 30 seconds into a send-to-limit raise. -/
def exToLimitState : LiftState :=
  { initState with isLifting := true, sendToLimit := true, liftDirection := "raise",
                   liftStartTime := 0, relayUp := true, pinUp := RELAY_ON }

/-- Witness for C2 at a concrete timed-out send-to-limit drive. -/
theorem sendToLimit_safety_timeout_witness :
    exToLimitState.isLifting = true ∧ exToLimitState.sendToLimit = true ∧
    MAX_SEND_TO_LIMIT_DURATION ≤ 30000 - exToLimitState.liftStartTime ∧
    (updateLift 30000 defaultCfg exToLimitState).lastStopReason = "safety_timeout" ∧
    (updateLift 30000 defaultCfg exToLimitState).pinUp = RELAY_OFF := by
  have h := sendToLimit_safety_timeout 30000 defaultCfg exToLimitState rfl rfl (by decide)
  exact ⟨rfl, rfl, by decide, h.2.2.2.2.2.2, h.2.2.1⟩

/-- Concrete state in the middle of a nudge (one relay pin energized). -/
def exNudgeState : LiftState :=
  { initState with isNudging := true, nudgeStartTime := 100, pinUp := RELAY_ON }

/-- Counterexample to C5 as stated: processing the "stop" command during
a nudge does not leave the nudge state unchanged — `stopLift("manual")`
cancels the nudge and de-energizes its relay. -/
theorem stop_cancels_nudge_counterexample :
    exNudgeState.isNudging = true ∧ exNudgeState.pinUp = RELAY_ON ∧
    (handleCommand 500 Command.stop exNudgeState).isNudging = false ∧
    (handleCommand 500 Command.stop exNudgeState).pinUp = RELAY_OFF := by
  decide

/-- C5 amended: a "stop" command cancels an in-progress nudge — it clears
`isNudging`, resets `nudgeStartTime`, and de-energizes both relay pins;
a nudge also ends on its own once its configured duration elapses. -/
theorem stop_cancels_nudge (now : Nat) (s : LiftState) (h : s.isNudging = true) :
    (handleCommand now Command.stop s).isNudging = false ∧
    (handleCommand now Command.stop s).nudgeStartTime = 0 ∧
    (handleCommand now Command.stop s).pinUp = RELAY_OFF ∧
    (handleCommand now Command.stop s).pinDown = RELAY_OFF ∧
    (∀ cfg t, Config.nudgeDuration cfg ≤ t - s.nudgeStartTime →
       (updateNudge t cfg s).isNudging = false) := by
  refine ⟨by simp [handleCommand], ?_, by simp [handleCommand], by simp [handleCommand], ?_⟩
  · simp [handleCommand, stopLift_nudgeStartTime, h]
  · intro cfg t ht
    simp only [updateNudge]
    split_ifs <;> simp_all

/-- Witness for C5's amended claim at a concrete nudging state. -/
theorem stop_cancels_nudge_witness :
    exNudgeState.isNudging = true ∧
    (handleCommand 500 Command.stop exNudgeState).isNudging = false ∧
    (updateNudge 400 defaultCfg exNudgeState).isNudging = false := by
  have h := stop_cancels_nudge 500 exNudgeState rfl
  exact ⟨rfl, h.1, h.2.2.2.2 defaultCfg 400 (by decide)⟩

/-- C10: in every reachable state a nudge in progress leaves the
`relayUp`/`relayDown` state fields false, so the telemetry built by
`publishState` never reflects nudge motion, even though `startNudge`
leaves those fields untouched while energizing one physical pin. -/
theorem nudge_hides_relay_state {cfg : Config} {s : LiftState}
    (h : Reachable cfg s) (hn : s.isNudging = true) :
    s.relayUp = false ∧ s.relayDown = false ∧
    publishedRelays s = (false, false) ∧
    (∀ now t a, ((startNudge now t a).relayUp = t.relayUp ∧
                 (startNudge now t a).relayDown = t.relayDown) ∧
                ((startNudge now t a).pinUp = RELAY_ON ∨
                 (startNudge now t a).pinDown = RELAY_ON)) := by
  have h2 := (relayInv_reachable h).2.2 hn
  refine ⟨h2.1, h2.2, by simp [publishedRelays, h2.1, h2.2], ?_⟩
  intro now t a
  refine ⟨⟨by simp, by simp⟩, ?_⟩
  simp only [startNudge]
  split_ifs <;> simp

/-- Concrete reachable nudging state: good read, raise command, then the
limit switch trips mid-drive, triggering the automatic nudge. -/
def exNudgeReach : LiftState :=
  readReedSwitch true 1 (handleCommand 0 Command.raise (updateUltrasonic 50 initState))

/-- Witness for C10 at a concrete reachable nudging state. -/
theorem nudge_hides_relay_state_witness :
    Reachable defaultCfg exNudgeReach ∧ exNudgeReach.isNudging = true ∧
    exNudgeReach.relayUp = false ∧ exNudgeReach.relayDown = false := by
  have hr : Reachable defaultCfg exNudgeReach :=
    Reachable.step (Reachable.step (Reachable.step Reachable.init (Step.ultra 50))
      (Step.cmd 0 Command.raise)) (Step.reed true 1)
  have hn : exNudgeReach.isNudging = true := by decide
  have h := nudge_hides_relay_state hr hn
  exact ⟨hr, hn, h.1, h.2.1⟩

theorem isSafeToMove_eq_false_of_limit (s : LiftState) (d : String)
    (hL : s.atLimit = true) (hld : s.limitDirection = d) :
    isSafeToMove s d = false := by
  simp only [isSafeToMove]
  split_ifs with h1 h2 h3 <;> first | rfl | exact absurd ⟨hL, Or.inr hld⟩ h2

theorem isSafeToMove_eq_true (s : LiftState) (d : String)
    (hN : s.isNudging = false)
    (hlim : ¬(s.atLimit = true ∧ (s.limitDirection = "" ∨ s.limitDirection = d)))
    (hobs : ¬(d = "lower" ∧ s.ultrasonicOk = true ∧ 0 < s.distanceCm ∧
              s.distanceCm < MIN_SAFE_DISTANCE_CM)) :
    isSafeToMove s d = true := by
  simp only [isSafeToMove]
  split_ifs with h1 h2 h3 <;> first | rfl | simp_all

theorem startLift_success (now : Nat) (s : LiftState) (d : String) (tl : Bool)
    (hs : isSafeToMove s d = true) :
    (startLift now s d tl).isLifting = true ∧
    (startLift now s d tl).liftDirection = d ∧
    (startLift now s d tl).sendToLimit = tl ∧
    (startLift now s d tl).liftStartTime = now := by
  simp only [startLift]
  split_ifs with h1 h2 h3
  all_goals
    first
      | exact absurd hs h1
      | exact ⟨rfl, rfl, rfl, rfl⟩

/-- C3: directional lock — with the limit switch triggered and
`limitDirection = d`, a start command for `d` is rejected with no state
change, while a start command for the opposite direction `o` is accepted
(provided no nudge is in progress and no obstacle blocks lowering);
symmetrically for both assignments of raise/lower to `d`/`o`. -/
theorem directional_lock (now : Nat) (s : LiftState) (d o : String) (tl : Bool)
    (hL : s.atLimit = true) (hN : s.isNudging = false)
    (hdo : (d = "raise" ∧ o = "lower") ∨ (d = "lower" ∧ o = "raise"))
    (hld : s.limitDirection = d)
    (hobs : ¬(o = "lower" ∧ s.ultrasonicOk = true ∧ 0 < s.distanceCm ∧
              s.distanceCm < MIN_SAFE_DISTANCE_CM)) :
    startLift now s d tl = s ∧
    (startLift now s o tl).isLifting = true ∧
    (startLift now s o tl).liftDirection = o ∧
    (startLift now s o tl).sendToLimit = tl := by
  have hsd : isSafeToMove s d = false := isSafeToMove_eq_false_of_limit s d hL hld
  have hne : d ≠ "" ∧ d ≠ o := by
    rcases hdo with ⟨h1, h2⟩ | ⟨h1, h2⟩ <;> subst h1 <;> subst h2 <;>
      exact ⟨by decide, by decide⟩
  have hso : isSafeToMove s o = true := by
    refine isSafeToMove_eq_true s o hN ?_ hobs
    rintro ⟨-, h | h⟩
    · exact hne.1 (hld.symm.trans h)
    · exact hne.2 (hld.symm.trans h)
  have hrej : startLift now s d tl = s := by simp [startLift, hsd]
  have hacc := startLift_success now s o tl hso
  exact ⟨hrej, hacc.1, hacc.2.1, hacc.2.2.1⟩

/-- Concrete idle state at the raise limit with a clear 50 cm reading. -/
def exLimitRaiseState : LiftState :=
  { initState with atLimit := true, limitDirection := "raise",
                   ultrasonicOk := true, distanceCm := 50 }

/-- Witness for C3: at the raise limit, raise is rejected unchanged and
lower starts a drive. -/
theorem directional_lock_witness :
    startLift 0 exLimitRaiseState "raise" false = exLimitRaiseState ∧
    (startLift 0 exLimitRaiseState "lower" false).isLifting = true ∧
    (startLift 0 exLimitRaiseState "lower" false).liftDirection = "lower" := by
  have h := directional_lock 0 exLimitRaiseState "raise" "lower" false rfl rfl
    (Or.inl ⟨rfl, rfl⟩) rfl (by decide)
  exact ⟨h.1, h.2.1, h.2.2.1⟩

theorem stopLift_lastStopReason_ne (t : LiftState) (r q : String)
    (hr : r ≠ q) (hpre : t.lastStopReason ≠ q) :
    (stopLift t r).lastStopReason ≠ q := by
  rw [stopLift_lastStopReason]; split_ifs <;> assumption

theorem updateLiftSafety_raise_no_obstacle (t : LiftState)
    (htd : t.liftDirection = "raise") (hpre : t.lastStopReason ≠ "obstacle") :
    (updateLiftSafety t).lastStopReason ≠ "obstacle" := by
  simp only [updateLiftSafety]
  split_ifs with hcl hco
  · exact stopLift_lastStopReason_ne t "limit" "obstacle" (by decide) hpre
  · exact absurd (htd.symm.trans hco.1) (by decide)
  · exact hpre

theorem updateLift_raise_never_obstacle (n : Nat) (cfg : Config) (t : LiftState)
    (htd : t.liftDirection = "raise") (hpre : t.lastStopReason ≠ "obstacle") :
    (updateLift n cfg t).lastStopReason ≠ "obstacle" := by
  simp only [updateLift]
  split_ifs
  all_goals
    first
      | exact hpre
      | exact stopLift_lastStopReason_ne t _ _ (by decide) hpre
      | exact updateLiftSafety_raise_no_obstacle t htd hpre

/-- C4: only the lowering direction is obstacle-checked — while driving
"lower" with a healthy sensor and `0 < distanceCm < MIN_SAFE_DISTANCE_CM`
(and neither timer expired nor a blocking limit, which would stop the
drive first with their own reasons), the tick evaluator stops the drive
with `lastStopReason = "obstacle"` and both relays off; a "raise" drive
is never stopped with reason "obstacle" regardless of distance. -/
theorem obstacle_check_only_lower (now : Nat) (cfg : Config) (s : LiftState)
    (hl : s.isLifting = true) (hd : s.liftDirection = "lower")
    (hok : s.ultrasonicOk = true) (h0 : 0 < s.distanceCm)
    (hmin : s.distanceCm < MIN_SAFE_DISTANCE_CM)
    (ht1 : s.sendToLimit = true → now - s.liftStartTime < MAX_SEND_TO_LIMIT_DURATION)
    (ht2 : s.sendToLimit = false → now - s.liftStartTime < cfg.liftDuration)
    (hlim : ¬(s.atLimit = true ∧ (s.limitDirection = "" ∨ s.limitDirection = s.liftDirection))) :
    ((updateLift now cfg s).isLifting = false ∧
     (updateLift now cfg s).lastStopReason = "obstacle" ∧
     (updateLift now cfg s).pinUp = RELAY_OFF ∧
     (updateLift now cfg s).pinDown = RELAY_OFF ∧
     (updateLift now cfg s).relayUp = false ∧
     (updateLift now cfg s).relayDown = false) ∧
    (∀ (n2 : Nat) (t : LiftState), t.liftDirection = "raise" →
       t.lastStopReason ≠ "obstacle" →
       (updateLift n2 cfg t).lastStopReason ≠ "obstacle") := by
  have heq : updateLift now cfg s = updateLiftSafety s := by
    cases hb : s.sendToLimit with
    | false =>
        have hlt := ht2 hb
        simp [updateLift, hl, hb, Nat.not_le.mpr hlt]
    | true =>
        have hlt := ht1 hb
        simp [updateLift, hl, hb, Nat.not_le.mpr hlt]
  have heq2 : updateLiftSafety s = stopLift s "obstacle" := by
    simp only [updateLiftSafety]
    split_ifs <;> first | rfl | simp_all
  rw [heq, heq2]
  refine ⟨⟨by simp, ?_, by simp, by simp, by simp, by simp⟩, ?_⟩
  · rw [stopLift_lastStopReason]; simp [hl]
  · exact fun n2 t htd hpre => updateLift_raise_never_obstacle n2 cfg t htd hpre

/-- Concrete lowering drive with an obstacle at 5 cm. -/
def exObstacleState : LiftState :=
  { initState with isLifting := true, liftDirection := "lower", sendToLimit := false,
                   liftStartTime := 0, relayDown := true, pinDown := RELAY_ON,
                   ultrasonicOk := true, distanceCm := 5 }

/-- Witness for C4 at the concrete obstacle scenario (threshold 10 cm,
distance 5 cm, one tick at t=100 ms). -/
theorem obstacle_check_only_lower_witness :
    (updateLift 100 defaultCfg exObstacleState).isLifting = false ∧
    (updateLift 100 defaultCfg exObstacleState).lastStopReason = "obstacle" ∧
    (updateLift 100 defaultCfg exObstacleState).pinUp = RELAY_OFF ∧
    (updateLift 100 defaultCfg exObstacleState).pinDown = RELAY_OFF := by
  have h := obstacle_check_only_lower 100 defaultCfg exObstacleState rfl rfl rfl
    (by decide) (by decide) (fun hc => absurd hc (by decide)) (fun _ => by decide)
    (by decide)
  exact ⟨h.1.1, h.1.2.1, h.1.2.2.1, h.1.2.2.2.1⟩

/-- Concrete state lifting with a healthy sensor at 50 cm and nothing
calibrated yet. -/
def exLiftingCalState : LiftState :=
  { initState with isLifting := true, liftDirection := "raise", relayUp := true,
                   pinUp := RELAY_ON, ultrasonicOk := true, distanceCm := 50 }

/-- Counterexample to C6 as stated: `calibratePosition` records a new top
endpoint even though the controller is lifting — the source checks only
`ultrasonicOk`, not `isLifting` or `isNudging`. -/
theorem calibrate_while_lifting_counterexample :
    exLiftingCalState.isLifting = true ∧
    exLiftingCalState.calibratedTopCm = 0 ∧
    (calibratePosition exLiftingCalState "top").calibratedTopCm = 50 := by
  decide

/-- C6 amended: a calibrate command takes effect if and only if the
ultrasonic sensor is healthy — when `ultrasonicOk` is false the call is a
no-op (reported as a failure), and when true it records the current
`distanceCm` as the requested endpoint regardless of lifting or nudging. -/
theorem calibrate_requires_sensor (s : LiftState) (p : String) :
    (s.ultrasonicOk = false → calibratePosition s p = s) ∧
    (s.ultrasonicOk = true →
       (calibratePosition s "top").calibratedTopCm = s.distanceCm ∧
       (calibratePosition s "top").calibratedBottomCm = s.calibratedBottomCm ∧
       (calibratePosition s "bottom").calibratedBottomCm = s.distanceCm ∧
       (calibratePosition s "bottom").calibratedTopCm = s.calibratedTopCm) := by
  constructor
  · intro h; simp [calibratePosition, h]
  · intro h
    refine ⟨?_, ?_, ?_, ?_⟩ <;> simp [calibratePosition, h]

/-- Witness for C6's amended claim: a no-op with the sensor down (boot
state) and a recorded endpoint with the sensor healthy mid-lift. -/
theorem calibrate_requires_sensor_witness :
    calibratePosition initState "top" = initState ∧
    (calibratePosition exLiftingCalState "bottom").calibratedBottomCm = 50 := by
  refine ⟨(calibrate_requires_sensor initState "top").1 rfl, ?_⟩
  have h := (calibrate_requires_sensor exLiftingCalState "bottom").2 rfl
  simpa [exLiftingCalState] using h.2.2.1

theorem updateUltrasonic_fail_distance (r : ℚ) (s : LiftState) (h : ¬ 0 < r) :
    (updateUltrasonic r s).distanceCm = s.distanceCm := by
  simp only [updateUltrasonic]
  split_ifs <;> simp_all

theorem updateUltrasonic_fail_count (r : ℚ) (s : LiftState) (h : ¬ 0 < r) :
    (updateUltrasonic r s).ultrasonicFailCount = s.ultrasonicFailCount + 1 := by
  simp only [updateUltrasonic]
  split_ifs <;> simp_all

theorem updateUltrasonic_fail_ok_lt (r : ℚ) (s : LiftState) (h : ¬ 0 < r)
    (hc : s.ultrasonicFailCount + 1 < ULTRASONIC_FAIL_THRESHOLD) :
    (updateUltrasonic r s).ultrasonicOk = s.ultrasonicOk := by
  simp only [updateUltrasonic]
  split_ifs <;> simp_all <;> omega

theorem updateUltrasonic_fail_ok_ge (r : ℚ) (s : LiftState) (h : ¬ 0 < r)
    (hc : ULTRASONIC_FAIL_THRESHOLD ≤ s.ultrasonicFailCount + 1) :
    (updateUltrasonic r s).ultrasonicOk = false := by
  simp only [updateUltrasonic]
  split_ifs <;> simp_all

theorem updateUltrasonic_success (r : ℚ) (s : LiftState) (h : 0 < r) :
    (updateUltrasonic r s).ultrasonicOk = true ∧
    (updateUltrasonic r s).ultrasonicFailCount = 0 ∧
    (updateUltrasonic r s).distanceCm = r := by
  simp only [updateUltrasonic]
  split_ifs <;> simp_all

/-- C7: sensor-health debounce — an isolated failed read (one failure with
the consecutive-failure counter at zero, i.e. following any successful
read) never changes `ultrasonicOk`; five consecutive failed reads always
force it to false from any starting state; and a single successful read
always sets it true and resets the counter to zero. -/
theorem ultrasonic_debounce (s : LiftState) (r : ℚ) :
    (r ≤ 0 → s.ultrasonicFailCount = 0 →
       (updateUltrasonic r s).ultrasonicOk = s.ultrasonicOk) ∧
    (0 < r → (updateUltrasonic r s).ultrasonicOk = true ∧
             (updateUltrasonic r s).ultrasonicFailCount = 0) ∧
    (∀ r1 r2 r3 r4 r5 : ℚ, r1 ≤ 0 → r2 ≤ 0 → r3 ≤ 0 → r4 ≤ 0 → r5 ≤ 0 →
       (updateUltrasonic r5 (updateUltrasonic r4 (updateUltrasonic r3
          (updateUltrasonic r2 (updateUltrasonic r1 s))))).ultrasonicOk = false) := by
  refine ⟨?_, ?_, ?_⟩
  · intro h h0
    refine updateUltrasonic_fail_ok_lt r s (not_lt.mpr h) ?_
    rw [h0]
    decide
  · intro h
    exact ⟨(updateUltrasonic_success r s h).1, (updateUltrasonic_success r s h).2.1⟩
  · intro r1 r2 r3 r4 r5 h1 h2 h3 h4 h5
    have n1 := updateUltrasonic_fail_count r1 s (not_lt.mpr h1)
    have n2 := updateUltrasonic_fail_count r2 (updateUltrasonic r1 s) (not_lt.mpr h2)
    have n3 := updateUltrasonic_fail_count r3
      (updateUltrasonic r2 (updateUltrasonic r1 s)) (not_lt.mpr h3)
    have n4 := updateUltrasonic_fail_count r4
      (updateUltrasonic r3 (updateUltrasonic r2 (updateUltrasonic r1 s))) (not_lt.mpr h4)
    refine updateUltrasonic_fail_ok_ge r5 _ (not_lt.mpr h5) ?_
    simp only [ULTRASONIC_FAIL_THRESHOLD]
    omega

/-- Witness for C7: one failure after a good state keeps the sensor
healthy, a good read turns it healthy, five failures in a row from boot
leave it unhealthy. -/
theorem ultrasonic_debounce_witness :
    (updateUltrasonic (-1) exLiftingCalState).ultrasonicOk = true ∧
    (updateUltrasonic 50 initState).ultrasonicOk = true ∧
    (updateUltrasonic (-1) (updateUltrasonic (-1) (updateUltrasonic (-1)
       (updateUltrasonic (-1) (updateUltrasonic (-1) initState))))).ultrasonicOk = false := by
  refine ⟨?_, ?_, ?_⟩
  · have h := (ultrasonic_debounce exLiftingCalState (-1)).1 (by norm_num) rfl
    simpa [exLiftingCalState, initState] using h
  · exact ((ultrasonic_debounce initState 50).2.1 (by norm_num)).1
  · exact (ultrasonic_debounce initState (-1)).2.2 (-1) (-1) (-1) (-1) (-1)
      (by norm_num) (by norm_num) (by norm_num) (by norm_num) (by norm_num)

/-- C8: a failed ultrasonic read (timeout, reported as a non-positive
return) leaves the stored `distanceCm` unchanged — the last known-good
distance is retained, never cleared. -/
theorem failed_read_keeps_distance (r : ℚ) (s : LiftState) (h : r ≤ 0) :
    (updateUltrasonic r s).distanceCm = s.distanceCm :=
  updateUltrasonic_fail_distance r s (not_lt.mpr h)

/-- Witness for C8: a timeout read (-1) at a state holding 50 cm keeps
50 cm. -/
theorem failed_read_keeps_distance_witness :
    (updateUltrasonic (-1) exLiftingCalState).distanceCm = 50 := by
  have h := failed_read_keeps_distance (-1) exLiftingCalState (by norm_num)
  simpa [exLiftingCalState, initState] using h

/-! Calibration round trip (C9). -/

theorem cTrunc_zero : cTrunc 0 = 0 := by decide

theorem cTrunc_hundred : cTrunc 100 = 100 := by decide

@[simp] theorem calibratePosition_ultrasonicOk (s : LiftState) (p : String) :
    (calibratePosition s p).ultrasonicOk = s.ultrasonicOk := by
  simp only [calibratePosition] <;> (try split_ifs) <;> simp_all

@[simp] theorem calibratePosition_distanceCm (s : LiftState) (p : String) :
    (calibratePosition s p).distanceCm = s.distanceCm := by
  simp only [calibratePosition] <;> (try split_ifs) <;> simp_all

theorem calibratePosition_top_fields (s : LiftState) (h : s.ultrasonicOk = true) :
    (calibratePosition s "top").calibratedTopCm = s.distanceCm ∧
    (calibratePosition s "top").calibratedBottomCm = s.calibratedBottomCm := by
  constructor <;> simp [calibratePosition, h]

theorem calibratePosition_bottom_fields (s : LiftState) (h : s.ultrasonicOk = true) :
    (calibratePosition s "bottom").calibratedBottomCm = s.distanceCm ∧
    (calibratePosition s "bottom").calibratedTopCm = s.calibratedTopCm := by
  constructor <;> simp [calibratePosition, h]

/-- The calibration sequence of C9: calibrate the top endpoint while the
live distance reads `T`, then the bottom endpoint while it reads `B`. -/
def calibrateBoth (s : LiftState) (T B : ℚ) : LiftState :=
  calibratePosition
    { calibratePosition { s with distanceCm := T } "top" with distanceCm := B } "bottom"

theorem calibrateBoth_fields (s : LiftState) (T B : ℚ) (hok : s.ultrasonicOk = true) :
    (calibrateBoth s T B).calibratedTopCm = T ∧
    (calibrateBoth s T B).calibratedBottomCm = B ∧
    (calibrateBoth s T B).ultrasonicOk = true := by
  have hok1 : ({ s with distanceCm := T } : LiftState).ultrasonicOk = true := hok
  have h1 := calibratePosition_top_fields { s with distanceCm := T } hok1
  have hokm : ({ calibratePosition { s with distanceCm := T } "top"
      with distanceCm := B } : LiftState).ultrasonicOk = true := by
    simpa using hok1
  have h2 := calibratePosition_bottom_fields
    { calibratePosition { s with distanceCm := T } "top" with distanceCm := B } hokm
  refine ⟨?_, ?_, ?_⟩
  · exact h2.2.trans h1.1
  · exact h2.1
  · simpa [calibrateBoth] using hok

theorem calcPercent_at_bottom (u : LiftState) (T B : ℚ)
    (htop : u.calibratedTopCm = T) (hbot : u.calibratedBottomCm = B)
    (hok : u.ultrasonicOk = true) (hd : u.distanceCm = B)
    (hT : 0 < T) (hTB : T < B) :
    calculatePositionPercent u = 0 := by
  have hB : (0:ℚ) < B := hT.trans hTB
  have hr : (0:ℚ) < B - T := sub_pos.mpr hTB
  simp only [calculatePositionPercent, htop, hbot, hok, hd]
  rw [if_neg (not_or.mpr ⟨hT.ne', hB.ne'⟩), if_neg (by simp), if_neg (not_le.mpr hr)]
  simp [cTrunc_zero]

theorem calcPercent_at_top (u : LiftState) (T B : ℚ)
    (htop : u.calibratedTopCm = T) (hbot : u.calibratedBottomCm = B)
    (hok : u.ultrasonicOk = true) (hd : u.distanceCm = T)
    (hT : 0 < T) (hTB : T < B) :
    calculatePositionPercent u = 100 := by
  have hB : (0:ℚ) < B := hT.trans hTB
  have hr : (0:ℚ) < B - T := sub_pos.mpr hTB
  simp only [calculatePositionPercent, htop, hbot, hok, hd]
  rw [if_neg (not_or.mpr ⟨hT.ne', hB.ne'⟩), if_neg (by simp), if_neg (not_le.mpr hr),
      div_self hr.ne']
  norm_num [cTrunc_hundred]

theorem calcPercent_range (u : LiftState) :
    calculatePositionPercent u = -1 ∨
    (0 ≤ calculatePositionPercent u ∧ calculatePositionPercent u ≤ 100) := by
  simp only [calculatePositionPercent]
  split_ifs <;> first | (left; rfl) | (right; omega)

theorem calcPercent_degenerate (u : LiftState)
    (h : u.calibratedTopCm = 0 ∨ u.calibratedBottomCm = 0 ∨
         u.calibratedBottomCm ≤ u.calibratedTopCm) :
    calculatePositionPercent u = -1 := by
  simp only [calculatePositionPercent]
  split_ifs with h1 h2 h3 h4 h5 <;> try rfl
  all_goals
    rcases h with h | h | h <;>
      first
        | exact absurd (Or.inl h) h1
        | exact absurd (Or.inr h) h1
        | exact absurd (sub_nonpos.mpr h) h3

/-- C9: calibration round-trip — after calibrating the top at live
distance `T` and the bottom at live distance `B` with `0 < T < B` and the
sensor healthy, the computed percent at distance `B` is 0 and at `T` is
100; every computed value is either -1 or clamped into [0, 100]; and -1
is returned whenever an endpoint is unset (stored as 0) or the range is
degenerate (`bottom ≤ top`). -/
theorem calibration_round_trip (s : LiftState) (T B : ℚ)
    (hok : s.ultrasonicOk = true) (hT : 0 < T) (hTB : T < B) :
    (calculatePositionPercent { calibrateBoth s T B with distanceCm := B } = 0 ∧
     calculatePositionPercent { calibrateBoth s T B with distanceCm := T } = 100) ∧
    (∀ u : LiftState, calculatePositionPercent u = -1 ∨
       (0 ≤ calculatePositionPercent u ∧ calculatePositionPercent u ≤ 100)) ∧
    (∀ u : LiftState, (u.calibratedTopCm = 0 ∨ u.calibratedBottomCm = 0 ∨
        u.calibratedBottomCm ≤ u.calibratedTopCm) → calculatePositionPercent u = -1) := by
  obtain ⟨htop, hbot, hok2⟩ := calibrateBoth_fields s T B hok
  refine ⟨⟨?_, ?_⟩, fun u => calcPercent_range u, fun u h => calcPercent_degenerate u h⟩
  · exact calcPercent_at_bottom _ T B htop hbot hok2 rfl hT hTB
  · exact calcPercent_at_top _ T B htop hbot hok2 rfl hT hTB

/-- Witness for C9 at a concrete calibration: top at 20 cm, bottom at
120 cm. -/
theorem calibration_round_trip_witness :
    calculatePositionPercent { calibrateBoth exLiftingCalState 20 120 with distanceCm := 120 } = 0 ∧
    calculatePositionPercent { calibrateBoth exLiftingCalState 20 120 with distanceCm := 20 } = 100 := by
  have h := calibration_round_trip exLiftingCalState 20 120 rfl (by norm_num) (by norm_num)
  exact ⟨h.1.1, h.1.2⟩

end BedLift
